import Mathlib

/-! Shallow embedding of the Bonfire music cog (cogs/music.py): the per-guild
playback queue, the skip-vote state machine and the command handlers the
specification describes.  Python strings are modelled as lists of characters,
the Python set of voter ids as a duplicate-free list (the code only inserts
under a membership guard), and the external collaborators (media resolver,
voice connection, channel membership) as explicit oracle parameters.  Pieces
that live in cogs/voice_utilities (absent from the sources) are modelled from
the spec and marked as such in their doc comments. -/

/-- Discord member identity; the code compares members directly
(voter == state.current.requester) and stores member ids in the vote set. -/
structure Member where
  id : Nat
deriving DecidableEq

/-- Audio player handle (the ffmpeg stream player): done mirrors is_done(),
stopped records that stop() was called, paused mirrors pause()/resume(), and
volume is the gain assigned by player.volume = value / 100. -/
structure Player where
  done : Bool
  stopped : Bool
  paused : Bool
  volume : ℚ
deriving DecidableEq

/-- Player.stop marks the stream stopped; is_done() reports true afterwards. -/
def Player.stop (p : Player) : Player :=
  { p with stopped := true, done := true }

/-- Player.pause pauses the stream. -/
def Player.pause (p : Player) : Player :=
  { p with paused := true }

/-- Player.resume resumes the stream. -/
def Player.resume (p : Player) : Player :=
  { p with paused := false }

/-- Modelled from the spec: the queue entry class of cogs/voice_utilities,
which is not among the sources.  requester and the query are fixed at
creation; duration is the track length from resolution; filename is the
staged local artifact, absent until the download finishes; player and
start_time are set by the audio worker when playback begins; remaining is
the "remaining time of current entry" used by the eta command. -/
structure VoiceEntry where
  requester : Member
  duration : Nat
  remaining : Nat
  filename : Option (List Char)
  player : Option Player
  start_time : Option Nat
deriving DecidableEq

/-- Per-guild voice state (class VoiceState of cogs/music.py): the current
entry, the voice connection handle (modelled as the id of the connected
channel), the playlist entries together with the spec's capacity bound, the
skip-vote bookkeeping, the worker wakeup event, and the stored volume. -/
structure VoiceState where
  current : Option VoiceEntry
  voice : Option Nat
  songs : List VoiceEntry
  songsCapacity : Nat
  required_skips : Nat
  skip_votes : List Nat
  play_next_song : Bool
  volume : Int
deriving DecidableEq

/-- Initial per-guild state built by VoiceState.__init__: no current entry,
no connection, empty queue, required_skips = 0, no votes, volume 50. -/
def initVoiceState (cap : Nat) : VoiceState :=
  { current := none
    voice := none
    songs := []
    songsCapacity := cap
    required_skips := 0
    skip_votes := []
    play_next_song := false
    volume := 50 }

/-- VoiceState.is_playing: false when the voice client or the current entry
is absent; otherwise it asks the current player whether it is done, and the
AttributeError raised when the entry's player is still unset is caught and
turned into false. -/
def VoiceState.is_playing (s : VoiceState) : Bool :=
  match s.voice, s.current with
  | some _, some cur =>
    match cur.player with
    | some p => !p.done
    | none => false
  | _, _ => false

/-- VoiceState.skip: clears the vote set first, then stops the active player
when (with the votes cleared) something is still playing. -/
def VoiceState.skip (s : VoiceState) : VoiceState :=
  if ({ s with skip_votes := [] } : VoiceState).is_playing then
    { s with
      skip_votes := []
      current := s.current.map fun c => { c with player := c.player.map Player.stop } }
  else { s with skip_votes := [] }

/-- Ceiling of m / 3 on naturals, the value of math.ceil(m / 3). -/
def ceilDiv3 (m : Nat) : Nat :=
  (m + 2) / 3

/-- Music.on_voice_state_update: when the guild has a voice connection and
the membership change touches the bot's channel (it equals the member's
channel before or after the move), the skip quota is recomputed as
math.ceil((num_members + 1) / 3) from the bot channel's member count. -/
def on_voice_state_update (s : VoiceState) (beforeCh afterCh : Option Nat)
    (numMembers : Nat) : VoiceState :=
  match s.voice with
  | none => s
  | some ch =>
    if some ch ≠ beforeCh ∧ some ch ≠ afterCh then s
    else { s with required_skips := ceilDiv3 (numMembers + 1) }

/-- Modelled from the spec: Playlist.full of cogs/voice_utilities (absent
from the sources) — the bounded FIFO reports full when its size has reached
its capacity. -/
def playlistFull (s : VoiceState) : Bool :=
  s.songsCapacity ≤ s.songs.length

/-- Modelled from the spec: Playlist.add_entry appends at the tail of the
FIFO (the 1-based position it returns is the size after insertion). -/
def enqueueEntry (s : VoiceState) (entry : VoiceEntry) : VoiceState :=
  { s with songs := s.songs ++ [entry] }

/-- Python substring test (pat in s) on character lists: leadsWith checks a
prefix match at the head. -/
def leadsWith : List Char → List Char → Bool
  | [], _ => true
  | _ :: _, [] => false
  | p :: ps, c :: cs => p == c && leadsWith ps cs

/-- Python substring test: the pattern occurs at some position of s. -/
def listContains (pat s : List Char) : Bool :=
  leadsWith pat s ||
    match s with
    | [] => false
    | _ :: rest => listContains pat rest

/-- Character-list form of the rejected host name checked by Music.play. -/
def soundcloudCom : List Char :=
  "soundcloud.com".toList

/-- Python re.sub removing the characters <, >, [ and ] from the query. -/
def stripBrackets (song : List Char) : List Char :=
  song.filter fun c => !(c == '<' || c == '>' || c == '[' || c == ']')

/-- Python str.split on the two-character separator of two newlines, with an
accumulator for the segment being read. -/
def splitOnNNAux : List Char → List Char → List (List Char)
  | [], acc => [acc.reverse]
  | [c], acc => [(c :: acc).reverse]
  | c1 :: c2 :: rest, acc =>
    if c1 = '\n' ∧ c2 = '\n' then acc.reverse :: splitOnNNAux rest []
    else splitOnNNAux (c2 :: rest) (c1 :: acc)

/-- Python str(e).split of the error text on a blank line. -/
def pySplitOnNN (s : List Char) : List (List Char) :=
  splitOnNNAux s []

/-- Python str.split() with no argument: split on whitespace runs, dropping
empty words. -/
def pySplitWsAux : List Char → List Char → List (List Char)
  | [], acc => if acc = [] then [] else [acc.reverse]
  | c :: rest, acc =>
    if c.isWhitespace then
      if acc = [] then pySplitWsAux rest []
      else acc.reverse :: pySplitWsAux rest []
    else pySplitWsAux rest (c :: acc)

/-- Python str.split() with no argument, from an empty accumulator. -/
def pySplitWs (s : List Char) : List (List Char) :=
  pySplitWsAux s []

/-- Python " ".join of a list of words. -/
def pyJoinSpace (ws : List (List Char)) : List Char :=
  List.intercalate [' '] ws

/-- Error text preparation shared by both ExtractionError handlers of
Music.play: take segment [1] of str(e).split on a blank line (none models
the IndexError escaping when there is no such segment), drop the first
whitespace-separated word, and join the rest with spaces. -/
def processError (raw : List Char) : Option (List Char) :=
  match pySplitOnNN raw with
  | _ :: e :: _ => some (pyJoinSpace ((pySplitWs e).drop 1))
  | _ => none

/-- Truncation applied by the outer ExtractionError handler of Music.play:
when the text has 2000 or more characters, keep the first 1996 and append
an ellipsis of three dots. -/
def truncateError (e : List Char) : List Char :=
  if 2000 ≤ e.length then e.take 1996 ++ ['.', '.', '.'] else e

/-- Message produced on the direct extraction-error path of Music.play
(the outer handler, which truncates). -/
def directErrorMessage (raw : List Char) : Option (List Char) :=
  (processError raw).map truncateError

/-- Message produced by the extraction-error handler inside the search
fallback of Music.play (the inner handler, which does not truncate). -/
def searchErrorMessage (raw : List Char) : Option (List Char) :=
  processError raw

/-- Outcome of one Playlist.add_entry call of the media resolver oracle. -/
inductive ResolveOutcome where
  | ok (entry : VoiceEntry)
  | wrongType
  | extractionError (raw : List Char)
deriving DecidableEq

/-- Outcome of the search fallback (extract_info followed by indexing the
first search result): a canonical link, an IndexError for no results, or an
extraction error carrying the upstream error text. -/
inductive SearchOutcome where
  | found (url : List Char)
  | noResults
  | searchError (raw : List Char)
deriving DecidableEq

/-- Oracle for one Music.play invocation: the requester's voice channel and
the resolver results of the first attempt, the search fallback and the
second attempt. -/
structure PlayEnv where
  authorChannel : Option Nat
  firstAttempt : ResolveOutcome
  searchOutcome : SearchOutcome
  secondAttempt : ResolveOutcome
deriving DecidableEq

/-- Observable side effects of one Music.play invocation. -/
inductive Effect where
  | resolveAttempt
  | searchAttempt
  | enqueueEffect
deriving DecidableEq

/-- User-facing reply of one Music.play invocation; crashed marks an
exception escaping the command. -/
inductive PlayMsg where
  | soundcloudMsg
  | summonFailed
  | queueFull
  | notInChannel
  | noResults (song : List Char)
  | errorMsg (text : List Char)
  | notSupported
  | enqueued (entry : VoiceEntry)
  | crashed
deriving DecidableEq

/-- Voice-connection step at the top of Music.play: an existing connection
is kept; otherwise summon joins the requester's channel, failing when the
requester is in no voice channel. -/
def ensureVoice (s : VoiceState) (authorChannel : Option Nat) : Option VoiceState :=
  match s.voice with
  | some _ => some s
  | none =>
    match authorChannel with
    | none => none
    | some ch => some { s with voice := some ch }

/-- Music.play: reject soundcloud links first, ensure a voice connection,
reject when the queue is full, reject requesters outside the bot's channel,
strip brackets from the query, then resolve; a WrongEntryTypeError falls
back to a provider search whose extraction errors are sent untruncated,
while the outer extraction-error handler truncates. -/
def Music.play (s : VoiceState) (song : List Char) (_author : Member)
    (env : PlayEnv) : VoiceState × PlayMsg × List Effect :=
  if listContains soundcloudCom song then
    (s, .soundcloudMsg, [])
  else
    match ensureVoice s env.authorChannel with
    | none => (s, .summonFailed, [])
    | some s1 =>
      if playlistFull s1 then (s1, .queueFull, [])
      else if s1.voice ≠ env.authorChannel then (s1, .notInChannel, [])
      else
        let song1 := stripBrackets song
        match env.firstAttempt with
        | .ok entry =>
          (enqueueEntry s1 entry, .enqueued entry, [.resolveAttempt, .enqueueEffect])
        | .extractionError raw =>
          match directErrorMessage raw with
          | some e => (s1, .errorMsg e, [.resolveAttempt])
          | none => (s1, .crashed, [.resolveAttempt])
        | .wrongType =>
          match env.searchOutcome with
          | .noResults => (s1, .noResults song1, [.resolveAttempt, .searchAttempt])
          | .searchError raw =>
            match searchErrorMessage raw with
            | some e => (s1, .errorMsg e, [.resolveAttempt, .searchAttempt])
            | none => (s1, .crashed, [.resolveAttempt, .searchAttempt])
          | .found _ =>
            match env.secondAttempt with
            | .ok entry =>
              (enqueueEntry s1 entry, .enqueued entry,
                [.resolveAttempt, .searchAttempt, .enqueueEffect])
            | .wrongType => (s1, .notSupported, [.resolveAttempt, .searchAttempt])
            | .extractionError _ => (s1, .crashed, [.resolveAttempt, .searchAttempt])

/-- User-facing reply of the volume command. -/
inductive VolumeMsg where
  | currentIs (v : Int)
  | maxIs200
  | setTo (gain : ℚ)
  | silent
deriving DecidableEq

/-- Music.volume: with no argument report the stored volume; reject values
above 200; otherwise store the value and, when a track is playing, update
the live player gain to value / 100 and report it. -/
def Music.volumeCmd (s : VoiceState) (value : Option Int) : VoiceState × VolumeMsg :=
  match value with
  | none => (s, .currentIs s.volume)
  | some v =>
    if v > 200 then (s, .maxIs200)
    else if ({ s with volume := v } : VoiceState).is_playing then
      ({ s with volume := v, current := s.current.map fun c =>
          { c with player := c.player.map fun p => { p with volume := (v : ℚ) / 100 } } },
        .setTo ((v : ℚ) / 100))
    else ({ s with volume := v }, .silent)

/-- User-facing reply of the eta command. -/
inductive EtaResult where
  | notPlaying
  | emptyQueue
  | nextUp
  | notQueued
  | eta (seconds : Nat)
deriving DecidableEq

/-- Accumulating loop of Music.eta: walk the queue adding each duration to
the count until a song requested by the author is reached; the flag records
whether the author was found. -/
def etaLoop (author : Member) (count : Nat) : List VoiceEntry → Nat × Bool
  | [] => (count, false)
  | song :: rest =>
    if song.requester = author then (count, true)
    else etaLoop author (count + song.duration) rest

/-- Music.eta: refuse when nothing is playing or the queue is empty; start
the count at the current entry's remaining time, add the durations of queued
songs before the author's first entry; answer next-in-queue when the count
equals the current entry's full duration, not-in-queue when the author was
never found, and the count otherwise. -/
def Music.etaCmd (s : VoiceState) (author : Member) : EtaResult :=
  if s.is_playing then
    match s.current with
    | none => .notPlaying
    | some cur =>
      if s.songs.length = 0 then .emptyQueue
      else
        let r := etaLoop author cur.remaining s.songs
        if r.1 = cur.duration then .nextUp
        else if r.2 = false then .notQueued
        else .eta r.1
  else .notPlaying

/-- User-facing reply of the skip command. -/
inductive SkipMsg where
  | notPlaying
  | requesterSkipped
  | votePassed
  | voteAdded (current required : Nat)
  | alreadyVoted
deriving DecidableEq

/-- Music.skip: refuse when nothing is playing; the requester of the current
entry skips at once; a new voter is added and the song is skipped when the
tally reaches required_skips, else the tally is reported; a repeated voter
is told they already voted. -/
def Music.skipCmd (s : VoiceState) (voter : Member) : VoiceState × SkipMsg :=
  if s.is_playing then
    match s.current with
    | none => (s, .notPlaying)
    | some cur =>
      if voter = cur.requester then (s.skip, .requesterSkipped)
      else if voter.id ∉ s.skip_votes then
        if s.required_skips ≤ (s.skip_votes ++ [voter.id]).length then
          (VoiceState.skip { s with skip_votes := s.skip_votes ++ [voter.id] }, .votePassed)
        else ({ s with skip_votes := s.skip_votes ++ [voter.id] },
          .voteAdded (s.skip_votes ++ [voter.id]).length s.required_skips)
      else (s, .alreadyVoted)
  else (s, .notPlaying)

/-- User-facing reply of the modskip command. -/
inductive ModskipMsg where
  | notPlaying
  | skipped
deriving DecidableEq

/-- Music.modskip: refuse when nothing is playing, else force the skip. -/
def Music.modskipCmd (s : VoiceState) : VoiceState × ModskipMsg :=
  if s.is_playing then (s.skip, .skipped) else (s, .notPlaying)

/-- Music.pause: pause the player only when something is playing. -/
def Music.pauseCmd (s : VoiceState) : VoiceState :=
  if s.is_playing then
    { s with current := s.current.map fun c => { c with player := c.player.map Player.pause } }
  else s

/-- Music.resume: resume the player only when something is playing. -/
def Music.resumeCmd (s : VoiceState) : VoiceState :=
  if s.is_playing then
    { s with current := s.current.map fun c => { c with player := c.player.map Player.resume } }
  else s

/-- User-facing reply of the queue listing command. -/
inductive QueueMsg where
  | notPlaying
  | emptyQueue
  | listing (entries : List VoiceEntry)
deriving DecidableEq

/-- Music.queue: refuse when nothing is playing, else list the entries. -/
def Music.queueCmd (s : VoiceState) : QueueMsg :=
  if s.is_playing then
    if s.songs = [] then .emptyQueue else .listing s.songs
  else .notPlaying

/-- User-facing reply of the playing command. -/
inductive PlayingMsg where
  | notPlaying
  | nowPlaying (entry : VoiceEntry) (votes required : Nat)
deriving DecidableEq

/-- Music.playing: refuse when nothing is playing, else report the current
entry with the skip tally. -/
def Music.playingCmd (s : VoiceState) : PlayingMsg :=
  if s.is_playing then
    match s.current with
    | some cur => .nowPlaying cur s.skip_votes.length s.required_skips
    | none => .notPlaying
  else .notPlaying

/-- Modelled from the spec: VoiceEntry.progress of cogs/voice_utilities,
the elapsed time computed from startedAtMonotonic; absent before playback
begins. -/
def VoiceEntry.progressAt (e : VoiceEntry) (now : Nat) : Option Nat :=
  e.start_time.map fun t => now - t

/-- User-facing reply of the progress command. -/
inductive ProgressMsg where
  | notPlaying
  | info (progress length : Nat)
deriving DecidableEq

/-- Music.progress: refuse when nothing is playing; the second guard also
refuses when progress or length is falsy (still downloading). -/
def Music.progressCmd (s : VoiceState) (now : Nat) : ProgressMsg :=
  if s.is_playing then
    match s.current with
    | none => .notPlaying
    | some cur =>
      match cur.progressAt now with
      | none => .notPlaying
      | some p =>
        if p = 0 ∨ cur.duration = 0 then .notPlaying
        else .info p cur.duration
  else .notPlaying

/-- Top of one audio_player_task loop iteration: clear the wakeup event and
the skip votes of the previous song, before waiting on the queue. -/
def audioIterationStart (s : VoiceState) : VoiceState :=
  { s with play_next_song := false, skip_votes := [] }

/-- One successful audio_player_task iteration: after the clearing step,
dequeue the oldest entry (none when the queue is empty and the worker keeps
polling), wait for its staged file (none while it is still downloading),
then build the player on the voice client (none without one), start it with
the stored volume and record the start time. -/
def audioIteration (s : VoiceState) (now : Nat) : Option VoiceState :=
  match (audioIterationStart s).songs with
  | [] => none
  | entry :: rest =>
    match entry.filename with
    | none => none
    | some _ =>
      match (audioIterationStart s).voice with
      | none => none
      | some _ =>
        some { audioIterationStart s with
          songs := rest
          current := some { entry with
            player := some
              { done := false
                stopped := false
                paused := false
                volume := ((audioIterationStart s).volume : ℚ) / 100 }
            start_time := some now } }

/-- Characterization of is_playing: true exactly when a voice client, a
current entry and its player all exist and the player is not done. -/
theorem is_playing_iff (s : VoiceState) :
    s.is_playing = true ↔
      ∃ v cur p, s.voice = some v ∧ s.current = some cur ∧
        cur.player = some p ∧ p.done = false := by
  cases hv : s.voice with
  | none => simp [VoiceState.is_playing, hv]
  | some v =>
    cases hc : s.current with
    | none => simp [VoiceState.is_playing, hv, hc]
    | some cur =>
      cases hp : cur.player with
      | none =>
        simp only [VoiceState.is_playing, hv, hc, hp]
        constructor
        · intro h; cases h
        · rintro ⟨v', cur', p', _, hc', hp', _⟩
          injection hc' with e
          subst e
          rw [hp] at hp'
          cases hp'
      | some p =>
        simp only [VoiceState.is_playing, hv, hc, hp, Bool.not_eq_true']
        constructor
        · intro h
          exact ⟨v, cur, p, rfl, rfl, hp, h⟩
        · rintro ⟨v', cur', p', _, hc', hp', hd⟩
          injection hc' with e
          subst e
          rw [hp] at hp'
          injection hp' with e'
          subst e'
          exact hd

/-- An ensured voice connection never changes the playlist. -/
theorem ensureVoice_songs (s s1 : VoiceState) (ac : Option Nat)
    (h : ensureVoice s ac = some s1) : s1.songs = s.songs := by
  unfold ensureVoice at h
  cases hv : s.voice with
  | some v => rw [hv] at h; cases h; rfl
  | none =>
    rw [hv] at h
    cases hac : ac with
    | none => rw [hac] at h; cases h
    | some ch => rw [hac] at h; cases h; rfl

/-- C4: whenever a voice-state update passes the guards (the guild has a
voice connection and the change touches the bot's channel), the skip quota
is recomputed as the ceiling of (memberCount + 1) / 3, namely the least k
with memberCount + 1 at most 3 * k. -/
theorem required_skips_recompute (s : VoiceState) (ch : Nat)
    (beforeCh afterCh : Option Nat) (n : Nat)
    (hv : s.voice = some ch) (hmatch : some ch = beforeCh ∨ some ch = afterCh) :
    (on_voice_state_update s beforeCh afterCh n).required_skips = ceilDiv3 (n + 1) ∧
      n + 1 ≤ 3 * ceilDiv3 (n + 1) ∧
      (∀ k : Nat, n + 1 ≤ 3 * k → ceilDiv3 (n + 1) ≤ k) := by
  refine ⟨?_, ?_, ?_⟩
  · simp only [on_voice_state_update, hv]
    rw [if_neg (by tauto)]
  · unfold ceilDiv3; omega
  · intro k hk; unfold ceilDiv3; omega

/-- State used by the witness for C4: a guild connected to channel 5. -/
def sC4 : VoiceState :=
  { initVoiceState 10 with voice := some 5 }

/-- Witness for C4 at member counts 2, 5 and 8 of the bot's channel. -/
theorem required_skips_recompute_witness :
    (on_voice_state_update sC4 (some 5) none 2).required_skips = 1 ∧
      (on_voice_state_update sC4 none (some 5) 5).required_skips = 2 ∧
      (on_voice_state_update sC4 (some 5) (some 5) 8).required_skips = 3 := by
  refine ⟨?_, ?_, ?_⟩
  · exact (required_skips_recompute sC4 5 (some 5) none 2 rfl (Or.inl rfl)).1.trans (by decide)
  · exact (required_skips_recompute sC4 5 none (some 5) 5 rfl (Or.inr rfl)).1.trans (by decide)
  · exact (required_skips_recompute sC4 5 (some 5) (some 5) 8 rfl (Or.inl rfl)).1.trans (by decide)

/-- C10: a play request whose query contains soundcloud.com is answered with
the soundcloud refusal and nothing else happens: the state comes back
untouched and no resolution, search or enqueue effect occurs. -/
theorem soundcloud_rejected (s : VoiceState) (song : List Char) (author : Member)
    (env : PlayEnv) (h : listContains soundcloudCom song = true) :
    Music.play s song author env = (s, .soundcloudMsg, []) := by
  unfold Music.play
  rw [if_pos h]

/-- Oracle used by witnesses whose play request never reaches the resolver. -/
def envTrivial : PlayEnv :=
  { authorChannel := none
    firstAttempt := .wrongType
    searchOutcome := .noResults
    secondAttempt := .wrongType }

/-- Witness for C10 on a concrete soundcloud link. -/
theorem soundcloud_rejected_witness :
    Music.play (initVoiceState 10) ("https://soundcloud.com/artist/track".toList) ⟨1⟩ envTrivial
      = (initVoiceState 10, .soundcloudMsg, []) :=
  soundcloud_rejected _ _ _ _ (by decide)

/-- C7: a play request that reaches the capacity check of a full queue is
answered with the queue-full message and has no side effects: the resulting
state is exactly the one after the voice-connection step (whose playlist is
the caller's playlist, unchanged), and no resolution, search or enqueue
effect occurs. -/
theorem play_queue_full_no_side_effects (s s1 : VoiceState) (song : List Char)
    (author : Member) (env : PlayEnv)
    (hsc : listContains soundcloudCom song = false)
    (hv : ensureVoice s env.authorChannel = some s1)
    (hfull : playlistFull s1 = true) :
    Music.play s song author env = (s1, .queueFull, []) ∧ s1.songs = s.songs := by
  constructor
  · unfold Music.play
    rw [hsc]
    simp only [Bool.false_eq_true, if_false, hv, hfull, if_true]
  · exact ensureVoice_songs s s1 env.authorChannel hv

/-- Queued entry used by several witnesses: a 40-second song of member 1. -/
def entryA : VoiceEntry :=
  { requester := ⟨1⟩
    duration := 40
    remaining := 40
    filename := none
    player := none
    start_time := none }

/-- State used by the witness for C7: capacity 1 and one queued entry. -/
def sC7 : VoiceState :=
  { initVoiceState 1 with voice := some 1, songs := [entryA] }

/-- Witness for C7: with the queue at capacity the play request fails with
the queue-full reply and touches nothing. -/
theorem play_queue_full_no_side_effects_witness :
    Music.play sC7 ("some song".toList) ⟨2⟩ envTrivial = (sC7, .queueFull, []) ∧
      sC7.songs = sC7.songs :=
  play_queue_full_no_side_effects sC7 sC7 _ _ _ (by decide) rfl (by decide)

/-- C2 counterexample: the volume command only rejects values above 200, so
the request for -1 is accepted and stores a volume outside 0..200. -/
theorem volume_negative_counterexample :
    (Music.volumeCmd (initVoiceState 10) (some (-1))).2 ≠ .maxIs200 ∧
      (Music.volumeCmd (initVoiceState 10) (some (-1))).1.volume < 0 := by
  decide

/-- C2 amended: the volume starts at the default 50; a request above 200 is
rejected with the out-of-range reply leaving the state untouched; an
accepted request stores exactly the requested value, so accepted calls keep
the stored volume at most 200 but enforce no lower bound. -/
theorem volume_bounds_amended :
    (∀ cap, (initVoiceState cap).volume = 50) ∧
      (∀ s v, 200 < v → Music.volumeCmd s (some v) = (s, .maxIs200)) ∧
      (∀ (s : VoiceState) (v : Int), v ≤ 200 →
        (Music.volumeCmd s (some v)).1.volume = v ∧
          (Music.volumeCmd s (some v)).1.volume ≤ 200) := by
  refine ⟨fun cap => rfl, fun s v hv => ?_, fun s v hv => ?_⟩
  · simp only [Music.volumeCmd]
    rw [if_pos hv]
  · simp only [Music.volumeCmd]
    rw [if_neg (show ¬(200 : Int) < v by omega)]
    constructor
    · split
      · rfl
      · rfl
    · split
      · exact hv
      · exact hv

/-- Witness for C2: 201 is rejected and 0 is accepted and stored. -/
theorem volume_bounds_amended_witness :
    Music.volumeCmd (initVoiceState 10) (some 201) = (initVoiceState 10, .maxIs200) ∧
      (Music.volumeCmd (initVoiceState 10) (some 0)).1.volume = 0 :=
  ⟨volume_bounds_amended.2.1 (initVoiceState 10) 201 (by omega),
   (volume_bounds_amended.2.2 (initVoiceState 10) 0 (by omega)).1⟩

/-- An executed skip on a playing state clears the votes and stops the
current entry's player. -/
theorem skip_stops_player (s : VoiceState) (cur : VoiceEntry) (p : Player) (v : Nat)
    (hv : s.voice = some v) (hcur : s.current = some cur) (hp : cur.player = some p)
    (hdone : p.done = false) :
    (VoiceState.skip s).skip_votes = [] ∧
      ((VoiceState.skip s).current.bind VoiceEntry.player).map Player.stopped
        = some true := by
  have hs1 : ({ s with skip_votes := [] } : VoiceState).is_playing = true :=
    (is_playing_iff _).2 ⟨v, cur, p, hv, hcur, hp, hdone⟩
  unfold VoiceState.skip
  rw [if_pos hs1]
  constructor
  · rfl
  · simp [hcur, hp, Player.stop]

/-- C5: a skip request by the requester of the current entry executes at
once and unconditionally: it answers with the requester-skip reply, clears
the vote set (so the caller is never inserted into it) and stops the active
player, with no condition on the current tally. -/
theorem requester_forces_skip (s : VoiceState) (cur : VoiceEntry) (voter : Member)
    (hplay : s.is_playing = true) (hcur : s.current = some cur)
    (hreq : voter = cur.requester) :
    (Music.skipCmd s voter).2 = .requesterSkipped ∧
      (Music.skipCmd s voter).1.skip_votes = [] ∧
      voter.id ∉ (Music.skipCmd s voter).1.skip_votes ∧
      ((Music.skipCmd s voter).1.current.bind VoiceEntry.player).map Player.stopped
        = some true := by
  obtain ⟨v, cur', p, hv, hcur', hp, hdone⟩ := (is_playing_iff s).1 hplay
  rw [hcur] at hcur'
  injection hcur' with e
  subst e
  have hcmd : Music.skipCmd s voter = (s.skip, .requesterSkipped) := by
    unfold Music.skipCmd
    rw [if_pos hplay, hcur]
    dsimp only
    rw [if_pos hreq]
  have hstop := skip_stops_player s cur p v hv hcur hp hdone
  rw [hcmd]
  refine ⟨rfl, hstop.1, ?_, hstop.2⟩
  show voter.id ∉ (VoiceState.skip s).skip_votes
  rw [hstop.1]
  simp

/-- C6: a skip vote from a non-requester while a track plays: a repeated
voter gets the already-voted reply with the state untouched; a new voter is
inserted, and the skip executes exactly when the new tally reaches
required_skips (clearing the votes and stopping the player), the tally
being reported otherwise. -/
theorem nonrequester_vote_outcomes (s : VoiceState) (cur : VoiceEntry) (voter : Member)
    (hplay : s.is_playing = true) (hcur : s.current = some cur)
    (hne : voter ≠ cur.requester) :
    (voter.id ∈ s.skip_votes → Music.skipCmd s voter = (s, .alreadyVoted)) ∧
      (voter.id ∉ s.skip_votes →
        (s.required_skips ≤ s.skip_votes.length + 1 →
          (Music.skipCmd s voter).2 = .votePassed ∧
            (Music.skipCmd s voter).1.skip_votes = [] ∧
            ((Music.skipCmd s voter).1.current.bind VoiceEntry.player).map Player.stopped
              = some true) ∧
        (s.skip_votes.length + 1 < s.required_skips →
          Music.skipCmd s voter =
            ({ s with skip_votes := s.skip_votes ++ [voter.id] },
              .voteAdded (s.skip_votes.length + 1) s.required_skips))) := by
  obtain ⟨v, cur', p, hv, hcur', hp, hdone⟩ := (is_playing_iff s).1 hplay
  rw [hcur] at hcur'
  injection hcur' with e
  subst e
  have hunf : Music.skipCmd s voter =
      (if voter.id ∉ s.skip_votes then
        if s.required_skips ≤ (s.skip_votes ++ [voter.id]).length then
          (VoiceState.skip { s with skip_votes := s.skip_votes ++ [voter.id] }, .votePassed)
        else ({ s with skip_votes := s.skip_votes ++ [voter.id] },
          .voteAdded (s.skip_votes ++ [voter.id]).length s.required_skips)
      else (s, .alreadyVoted)) := by
    unfold Music.skipCmd
    rw [if_pos hplay, hcur]
    dsimp only
    rw [if_neg hne]
  constructor
  · intro hmem
    rw [hunf, if_neg (not_not_intro hmem)]
  · intro hnot
    have hlen : (s.skip_votes ++ [voter.id]).length = s.skip_votes.length + 1 := by
      simp
    constructor
    · intro hth
      rw [hunf, if_pos hnot, if_pos (by omega)]
      have hstop := skip_stops_player { s with skip_votes := s.skip_votes ++ [voter.id] }
        cur p v hv hcur hp hdone
      exact ⟨rfl, hstop.1, hstop.2⟩
    · intro hlt
      rw [hunf, if_pos hnot, if_neg (by omega), hlen]

/-- Entry used by skip-vote witnesses: a playing 100-second song of member 1
with 30 seconds left. -/
def entryB : VoiceEntry :=
  { requester := ⟨1⟩
    duration := 100
    remaining := 30
    filename := some ("b.mp3".toList)
    player := some { done := false, stopped := false, paused := false, volume := 0 }
    start_time := some 0 }

/-- State used by the witness for C5: entry of member 1 playing, two votes
already cast by members 5 and 6. -/
def sC5 : VoiceState :=
  { initVoiceState 10 with voice := some 1, current := some entryB, skip_votes := [5, 6] }

/-- Witness for C5: the requester of the playing entry forces the skip. -/
theorem requester_forces_skip_witness :
    (Music.skipCmd sC5 ⟨1⟩).2 = .requesterSkipped ∧
      (Music.skipCmd sC5 ⟨1⟩).1.skip_votes = [] ∧
      (1 : Nat) ∉ (Music.skipCmd sC5 ⟨1⟩).1.skip_votes ∧
      ((Music.skipCmd sC5 ⟨1⟩).1.current.bind VoiceEntry.player).map Player.stopped
        = some true :=
  requester_forces_skip sC5 entryB ⟨1⟩ (by decide) rfl rfl

/-- State used by the witness for C6: entry of member 1 playing, quota two,
no votes yet. -/
def sC6 : VoiceState :=
  { initVoiceState 10 with voice := some 1, current := some entryB, required_skips := 2 }

/-- Witness for C6: a first non-requester vote below the quota records a
tally of one out of two. -/
theorem nonrequester_vote_outcomes_witness :
    Music.skipCmd sC6 ⟨2⟩ = ({ sC6 with skip_votes := [2] }, .voteAdded 1 2) := by
  have h := ((nonrequester_vote_outcomes sC6 entryB ⟨2⟩ (by decide) rfl (by decide)).2
    (by decide)).2 (by decide)
  exact h.trans (by decide)

/-- C8: the skip-vote set is cleared at the top of every audio-worker loop
iteration before the dequeue, every completed iteration hands the next track
a state with no votes, and every executed skip (voluntary or forced) clears
it — so no vote against one track is ever counted toward a later one. -/
theorem skip_votes_cleared_invariant :
    (∀ s, (audioIterationStart s).skip_votes = []) ∧
      (∀ s now s1, audioIteration s now = some s1 → s1.skip_votes = []) ∧
      (∀ s, (VoiceState.skip s).skip_votes = []) := by
  refine ⟨fun s => rfl, fun s now s1 h => ?_, fun s => ?_⟩
  · unfold audioIteration at h
    split at h
    · cases h
    · split at h
      · cases h
      · split at h
        · cases h
        · cases h
          rfl
  · unfold VoiceState.skip
    split
    · rfl
    · rfl

/-- Entry used by the witness for C8: a staged (downloaded) song. -/
def entryD : VoiceEntry :=
  { requester := ⟨1⟩
    duration := 10
    remaining := 10
    filename := some ("f.mp3".toList)
    player := none
    start_time := none }

/-- State used by the witness for C8: connected, one staged song queued and
two leftover votes. -/
def sC8 : VoiceState :=
  { initVoiceState 10 with voice := some 1, songs := [entryD], skip_votes := [7, 8] }

/-- Witness for C8: a completed worker iteration and an executed skip both
leave no votes. -/
theorem skip_votes_cleared_invariant_witness :
    ((audioIteration sC8 5).getD (initVoiceState 0)).skip_votes = [] ∧
      (VoiceState.skip sC8).skip_votes = [] :=
  ⟨skip_votes_cleared_invariant.2.1 sC8 5 _ rfl,
   skip_votes_cleared_invariant.2.2 sC8⟩

/-- C9: is_playing is a total predicate, false whenever the voice client,
the current entry or the entry's player is absent, and every
playback-inspecting command then answers not-playing or returns the state
untouched instead of raising. -/
theorem not_playing_guards (s : VoiceState)
    (h : s.voice = none ∨ s.current = none ∨
      ∃ cur, s.current = some cur ∧ cur.player = none) :
    s.is_playing = false ∧
      (∀ a, Music.etaCmd s a = .notPlaying) ∧
      (∀ vtr, Music.skipCmd s vtr = (s, .notPlaying)) ∧
      Music.modskipCmd s = (s, .notPlaying) ∧
      Music.pauseCmd s = s ∧
      Music.resumeCmd s = s ∧
      (∀ now, Music.progressCmd s now = .notPlaying) ∧
      Music.queueCmd s = .notPlaying ∧
      Music.playingCmd s = .notPlaying := by
  have hf : s.is_playing = false := by
    cases hb : s.is_playing
    · rfl
    · exfalso
      obtain ⟨v, cur, p, hv, hc, hp, _⟩ := (is_playing_iff s).1 hb
      rcases h with h1 | h1 | ⟨cur1, hc1, hp1⟩
      · rw [h1] at hv; cases hv
      · rw [h1] at hc; cases hc
      · rw [hc] at hc1
        injection hc1 with e
        subst e
        rw [hp] at hp1
        cases hp1
  refine ⟨hf, fun a => ?_, fun vtr => ?_, ?_, ?_, ?_, fun now => ?_, ?_, ?_⟩ <;>
    simp [Music.etaCmd, Music.skipCmd, Music.modskipCmd, Music.pauseCmd,
      Music.resumeCmd, Music.progressCmd, Music.queueCmd, Music.playingCmd, hf]

/-- Witness for C9 on the freshly created state, which has no connection. -/
theorem not_playing_guards_witness :
    (initVoiceState 10).is_playing = false ∧
      Music.etaCmd (initVoiceState 10) ⟨1⟩ = .notPlaying ∧
      Music.skipCmd (initVoiceState 10) ⟨1⟩ = (initVoiceState 10, .notPlaying) ∧
      Music.modskipCmd (initVoiceState 10) = (initVoiceState 10, .notPlaying) :=
  ⟨(not_playing_guards (initVoiceState 10) (Or.inl rfl)).1,
   (not_playing_guards (initVoiceState 10) (Or.inl rfl)).2.1 ⟨1⟩,
   (not_playing_guards (initVoiceState 10) (Or.inl rfl)).2.2.1 ⟨1⟩,
   (not_playing_guards (initVoiceState 10) (Or.inl rfl)).2.2.2.1⟩

/-- Member 1, the requester of the queued entry in the C1 failing input. -/
def memberX : Member := ⟨1⟩

/-- Current entry of the C1 failing input: a 100-second track requested by
member 3 with 30 seconds remaining. -/
def entryCur : VoiceEntry :=
  { requester := ⟨3⟩
    duration := 100
    remaining := 30
    filename := some ("c.mp3".toList)
    player := some { done := false, stopped := false, paused := false, volume := 0 }
    start_time := some 0 }

/-- Failing input for C1: entryCur is playing and the only queued entry
belongs to member 1. -/
def sC1 : VoiceState :=
  { initVoiceState 10 with voice := some 1, current := some entryCur, songs := [entryA] }

/-- C1 failing input evaluated (code bug): 30 seconds of the current
100-second track remain and the very next queued entry belongs to member 1,
yet the eta command answers with the 30-second count rather than the
next-in-queue reply, because it compares the accumulated count against the
current entry's full duration instead of its remaining time. -/
theorem eta_failing_input_eval :
    Music.etaCmd sC1 memberX = .eta 30 ∧ Music.etaCmd sC1 memberX ≠ .nextUp := by
  decide

/-- Step equation of splitOnNNAux on a list with at least two characters. -/
theorem splitOnNNAux_cons2 (c1 c2 : Char) (rest acc : List Char) :
    splitOnNNAux (c1 :: c2 :: rest) acc =
      if c1 = '\n' ∧ c2 = '\n' then acc.reverse :: splitOnNNAux rest []
      else splitOnNNAux (c2 :: rest) (c1 :: acc) := rfl

/-- Step equation of pySplitWsAux on a nonempty list. -/
theorem pySplitWsAux_cons (c : Char) (rest acc : List Char) :
    pySplitWsAux (c :: rest) acc =
      if c.isWhitespace then
        if acc = [] then pySplitWsAux rest []
        else acc.reverse :: pySplitWsAux rest []
      else pySplitWsAux rest (c :: acc) := rfl

/-- A run of the letter a contains no blank line, so splitOnNNAux keeps it
in the segment being read. -/
theorem splitOnNNAux_replicate (n : Nat) (acc : List Char) :
    splitOnNNAux (List.replicate n 'a') acc = [acc.reverse ++ List.replicate n 'a'] := by
  induction n generalizing acc with
  | zero => simp [splitOnNNAux]
  | succ m ih =>
    cases m with
    | zero => simp [splitOnNNAux, List.replicate]
    | succ k =>
      have step : splitOnNNAux (List.replicate (k + 1 + 1) 'a') acc =
          splitOnNNAux (List.replicate (k + 1) 'a') ('a' :: acc) := by
        rw [List.replicate_succ, List.replicate_succ, splitOnNNAux_cons2,
          if_neg (by decide)]
      rw [step, ih]
      simp [List.replicate_succ, List.append_assoc]

/-- A run of the letter a contains no whitespace, so pySplitWsAux keeps it
in the word being read. -/
theorem pySplitWsAux_replicate (n : Nat) (acc : List Char) :
    pySplitWsAux (List.replicate n 'a') acc =
      if acc = [] ∧ n = 0 then [] else [acc.reverse ++ List.replicate n 'a'] := by
  induction n generalizing acc with
  | zero =>
    by_cases h : acc = []
    · simp [pySplitWsAux, h]
    · simp [pySplitWsAux, h]
  | succ m ih =>
    rw [List.replicate_succ, pySplitWsAux_cons, if_neg (by decide), ih,
      if_neg (by simp), if_neg (by simp)]
    simp [List.replicate_succ, List.append_assoc]

/-- Upstream extraction-error text whose processed form has 2100
characters: a first segment, a blank line, then one word followed by a run
of 2100 letters. -/
def rawLong : List Char :=
  'x' :: '\n' :: '\n' :: 'F' :: ' ' :: List.replicate 2100 'a'

/-- Splitting the long error text on the blank line yields its two
segments. -/
theorem pySplitOnNN_rawLong :
    pySplitOnNN rawLong = [['x'], 'F' :: ' ' :: List.replicate 2100 'a'] := by
  unfold pySplitOnNN rawLong
  rw [show (2100 : Nat) = 2099 + 1 from rfl, List.replicate_succ]
  rw [splitOnNNAux_cons2, if_neg (by decide)]
  rw [splitOnNNAux_cons2, if_pos (by decide)]
  rw [splitOnNNAux_cons2, if_neg (by decide)]
  rw [splitOnNNAux_cons2, if_neg (by decide)]
  rw [← List.replicate_succ, splitOnNNAux_replicate]
  simp only [List.reverse_cons, List.reverse_nil, List.nil_append,
    List.singleton_append, List.cons_append, List.append_assoc]

/-- Joining a single word with spaces gives back the word. -/
theorem pyJoinSpace_singleton (l : List Char) : pyJoinSpace [l] = l := by
  simp [pyJoinSpace, List.intercalate, List.intersperse]

/-- Processing the long error text keeps all 2100 letters: segment one is
dropped, the first word of segment two is dropped and the run remains. -/
theorem processError_rawLong :
    processError rawLong = some (List.replicate 2100 'a') := by
  have hws : pySplitWs ('F' :: ' ' :: List.replicate 2100 'a')
      = [['F'], List.replicate 2100 'a'] := by
    unfold pySplitWs
    rw [pySplitWsAux_cons, if_neg (by decide)]
    rw [pySplitWsAux_cons, if_pos (by decide), if_neg (by decide)]
    rw [pySplitWsAux_replicate, if_neg (by simp)]
    simp only [List.reverse_cons, List.reverse_nil, List.nil_append]
  unfold processError
  rw [pySplitOnNN_rawLong]
  dsimp only
  rw [hws]
  rw [show ([['F'], List.replicate 2100 'a'] : List (List Char)).drop 1
    = [List.replicate 2100 'a'] from rfl]
  rw [pyJoinSpace_singleton]

/-- Oracle for the C3 counterexample: the first attempt reports the wrong
entry type and the search fallback raises the long extraction error. -/
def envC3 : PlayEnv :=
  { authorChannel := some 1
    firstAttempt := .wrongType
    searchOutcome := .searchError rawLong
    secondAttempt := .wrongType }

/-- State for the C3 counterexamples and witness: connected to the
requester's channel with room in the queue. -/
def sC3 : VoiceState :=
  { initVoiceState 10 with voice := some 1 }

/-- C3 counterexample: on the search-fallback extraction-error path the play
command sends the processed upstream text with no truncation — here a
message of 2100 characters, exceeding the 2000-character platform limit. -/
theorem error_truncation_counterexample :
    (Music.play sC3 ("query".toList) ⟨1⟩ envC3).2.1
        = .errorMsg (List.replicate 2100 'a') ∧
      2000 < (List.replicate 2100 'a').length := by
  constructor
  · have hmsg : searchErrorMessage rawLong = some (List.replicate 2100 'a') :=
      processError_rawLong
    unfold Music.play
    rw [if_neg (by decide)]
    rw [show ensureVoice sC3 envC3.authorChannel = some sC3 from rfl]
    dsimp only
    rw [if_neg (by decide), if_neg (by decide)]
    rw [show envC3.firstAttempt = ResolveOutcome.wrongType from rfl]
    dsimp only
    rw [show envC3.searchOutcome = SearchOutcome.searchError rawLong from rfl]
    dsimp only
    rw [hmsg]
  · rw [List.length_replicate]
    omega

/-- The truncation of the outer handler always leaves at most 1999
characters. -/
theorem truncateError_length (e : List Char) : (truncateError e).length ≤ 1999 := by
  unfold truncateError
  split
  · simp only [List.length_append, List.length_take, List.length_cons, List.length_nil]
    omega
  · omega

/-- C3 amended: on the direct extraction-error path of Music.play (the
outer handler) the sent message is truncated, so it has at most 1999
characters and fits the 2000-character platform limit; the handler inside
the search fallback sends the processed text untruncated and can exceed the
limit (see the counterexample). -/
theorem direct_error_path_truncated (s : VoiceState) (song : List Char)
    (author : Member) (env : PlayEnv) (raw e : List Char)
    (hfa : env.firstAttempt = .extractionError raw)
    (hmsg : (Music.play s song author env).2.1 = .errorMsg e) :
    e.length ≤ 1999 := by
  unfold Music.play at hmsg
  rw [hfa] at hmsg
  split at hmsg
  · simp at hmsg
  · split at hmsg
    · simp at hmsg
    · split at hmsg
      · simp at hmsg
      · split at hmsg
        · simp at hmsg
        · dsimp only at hmsg
          split at hmsg
          · simp only at hmsg
            rename_i e1 heq
            simp at hmsg
            subst hmsg
            unfold directErrorMessage at heq
            rw [Option.map_eq_some'] at heq
            obtain ⟨e0, _, he⟩ := heq
            rw [← he]
            exact truncateError_length e0
          · simp at hmsg

/-- Short upstream error text used by the C3 witness. -/
def rawShort : List Char := "err\n\nE short text".toList

/-- Oracle for the C3 witness: the first resolution attempt fails with the
short extraction error. -/
def envC3w : PlayEnv :=
  { authorChannel := some 1
    firstAttempt := .extractionError rawShort
    searchOutcome := .noResults
    secondAttempt := .wrongType }

/-- Witness for C3 amended: the direct-path message produced from the short
error is within the limit. -/
theorem direct_error_path_truncated_witness :
    (Music.play sC3 ("query".toList) ⟨1⟩ envC3w).2.1
        = .errorMsg ("short text".toList) ∧
      ("short text".toList : List Char).length ≤ 1999 :=
  ⟨by decide,
   direct_error_path_truncated sC3 ("query".toList) ⟨1⟩ envC3w rawShort
     ("short text".toList) rfl (by decide)⟩
